import Mathlib

/-!
Verification of the Discord interaction webhook handler
(`app/api/discord/interactions/route.ts`).

The development shallowly embeds the route handler: the JavaScript string
builtins the handler relies on (`encodeURIComponent`, `decodeURIComponent`,
`String.prototype.split`, `String.prototype.startsWith`, number-to-string,
the `||` falsy-or) are modelled as executable Lean functions; network calls
are abstracted into an environment record that supplies each fetch's
outcome, while the handler records every outbound call in an effect trace.
A JavaScript exception escaping the handler is modelled as a `thrown`
outcome.  `PostResult.effects` are the effects the handler awaits before
producing its HTTP response; `PostResult.detached` are effects scheduled to
run only after the response is in flight (e.g. via `queueMicrotask`) —
the revision under `src/` schedules none.
-/

namespace Route

/-! ## Modelled JavaScript primitives -/

/-- JavaScript `a || b` for strings: the empty string is falsy. -/
def jsOr (a b : String) : String := if a = "" then b else a

/-- Concatenation-map over lists (used to build encoder output). -/
def concatMap (f : α → List β) : List α → List β
  | [] => []
  | a :: l => f a ++ concatMap f l

/-- Characters `encodeURIComponent` leaves unescaped:
`A-Z a-z 0-9 - _ . ! ~ * ' ( )`. -/
def isUnreservedURI (c : Char) : Bool :=
  (65 ≤ c.toNat && c.toNat ≤ 90) || (97 ≤ c.toNat && c.toNat ≤ 122) ||
  (48 ≤ c.toNat && c.toNat ≤ 57) ||
  c.toNat == 45 || c.toNat == 95 || c.toNat == 46 || c.toNat == 33 ||
  c.toNat == 126 || c.toNat == 42 || c.toNat == 39 || c.toNat == 40 || c.toNat == 41

/-- Upper-case hexadecimal digit, as emitted by `encodeURIComponent`. -/
def hexDigitChar (n : Nat) : Char :=
  if n < 10 then Char.ofNat (48 + n) else Char.ofNat (55 + n)

/-- UTF-8 encoding of one scalar value, as a byte list. -/
def utf8EncodeChar (c : Char) : List Nat :=
  if c.toNat < 128 then [c.toNat]
  else if c.toNat < 2048 then [192 + c.toNat / 64, 128 + c.toNat % 64]
  else if c.toNat < 65536 then
    [224 + c.toNat / 4096, 128 + c.toNat / 64 % 64, 128 + c.toNat % 64]
  else
    [240 + c.toNat / 262144, 128 + c.toNat / 4096 % 64,
     128 + c.toNat / 64 % 64, 128 + c.toNat % 64]

/-- `%XY` escape of one byte. -/
def percentEscape (b : Nat) : List Char :=
  ['%', hexDigitChar (b / 16), hexDigitChar (b % 16)]

/-- One character's contribution to `encodeURIComponent` output. -/
def encodeChar (c : Char) : List Char :=
  if isUnreservedURI c then [c] else concatMap percentEscape (utf8EncodeChar c)

/-- Model of JavaScript `encodeURIComponent`. -/
def encodeURIComponent (s : String) : String :=
  String.mk (concatMap encodeChar s.data)

/-- Value of a hexadecimal digit character (either case), as accepted by
`decodeURIComponent`. -/
def hexVal (c : Char) : Option Nat :=
  if 48 ≤ c.toNat && c.toNat ≤ 57 then some (c.toNat - 48)
  else if 65 ≤ c.toNat && c.toNat ≤ 70 then some (c.toNat - 55)
  else if 97 ≤ c.toNat && c.toNat ≤ 102 then some (c.toNat - 87)
  else none

/-- First stage of `decodeURIComponent`: turn the escaped text into a byte
sequence (`%XY` escapes become one byte, literal characters contribute
their UTF-8 bytes).  A truncated or non-hexadecimal escape is a
`URIError`, modelled as `none`. -/
def uriBytes : List Char → Option (List Nat)
  | [] => some []
  | c :: rest =>
    if c.toNat == 37 then
      match rest with
      | h :: l :: rest2 =>
        match hexVal h, hexVal l with
        | some hv, some lv => (uriBytes rest2).map fun bs => (16 * hv + lv) :: bs
        | _, _ => none
      | _ => none
    else (uriBytes rest).map fun bs => utf8EncodeChar c ++ bs

/-- Decode one UTF-8 code point: the leading byte `b` plus the
continuation bytes it requires taken from `rest`; returns the code point
and the remaining bytes.  Overlong forms, surrogates, out-of-range values,
bad continuation bytes and truncated sequences are a `URIError` (`none`). -/
def utf8Step (b : Nat) (rest : List Nat) : Option (Nat × List Nat) :=
  if b < 128 then some (b, rest)
  else if b < 192 then none
  else if b < 224 then
    match rest with
    | b2 :: rest2 =>
      if 128 ≤ b2 && b2 < 192 then
        let v := (b - 192) * 64 + (b2 - 128)
        if v < 128 then none else some (v, rest2)
      else none
    | [] => none
  else if b < 240 then
    match rest with
    | b2 :: b3 :: rest2 =>
      if (128 ≤ b2 && b2 < 192) && (128 ≤ b3 && b3 < 192) then
        let v := (b - 224) * 4096 + (b2 - 128) * 64 + (b3 - 128)
        if v < 2048 || (55296 ≤ v && v < 57344) then none else some (v, rest2)
      else none
    | _ => none
  else if b < 248 then
    match rest with
    | b2 :: b3 :: b4 :: rest2 =>
      if (128 ≤ b2 && b2 < 192) && ((128 ≤ b3 && b3 < 192) && (128 ≤ b4 && b4 < 192)) then
        let v := (b - 240) * 262144 + (b2 - 128) * 4096 + (b3 - 128) * 64 + (b4 - 128)
        if v < 65536 || 1114112 ≤ v then none else some (v, rest2)
      else none
    | _ => none
  else none

/-- Decoding loop: one code point per step.  Structural recursion on a
fuel bound; each step consumes at least the leading byte, so the
fuel-exhausted arm is unreachable while the list's length is at most the
fuel. -/
def utf8DecodeLoop : Nat → List Nat → Option (List Char)
  | _, [] => some []
  | 0, _ :: _ => none
  | fuel + 1, b :: rest =>
    match utf8Step b rest with
    | some (v, rest2) => (utf8DecodeLoop fuel rest2).map fun cs => Char.ofNat v :: cs
    | none => none

/-- Second stage of `decodeURIComponent`: strict UTF-8 decoding of the
byte sequence. -/
def utf8Decode (bs : List Nat) : Option (List Char) :=
  utf8DecodeLoop bs.length bs

/-- Model of JavaScript `decodeURIComponent`; `none` models a thrown
`URIError`. -/
def decodeURIComponent (s : String) : Option String :=
  match uriBytes s.data with
  | none => none
  | some bs => (utf8Decode bs).map String.mk

/-- Worker for `jsSplit`: scan for the (non-empty) separator
`c0 :: sepRest`, accumulating the current field in reverse.  The fuel
argument (any bound on the scanned list's length, e.g. the length itself)
makes the recursion structural; at least one character is consumed per
step, so the fuel-exhausted branch is unreachable while `l.length ≤ fuel`. -/
def jsSplitAux (c0 : Char) (sepRest : List Char) :
    Nat → List Char → List Char → List (List Char)
  | _, [], acc => [acc.reverse]
  | 0, l, acc => [acc.reverse ++ l]
  | fuel + 1, c :: rest, acc =>
    if c == c0 && sepRest.isPrefixOf rest then
      acc.reverse :: jsSplitAux c0 sepRest fuel (rest.drop sepRest.length) []
    else jsSplitAux c0 sepRest fuel rest (c :: acc)

/-- Model of JavaScript `String.prototype.split` with a non-empty string
separator (the handler only splits on `"::"` and `":"`; the empty-separator
case never occurs in this code). -/
def jsSplit (s sep : String) : List String :=
  match sep.data with
  | [] => [s]
  | c0 :: sepRest => (jsSplitAux c0 sepRest s.data.length s.data []).map String.mk

/-- Model of JavaScript `String.prototype.startsWith`. -/
def jsStartsWith (s pre : String) : Bool :=
  pre.data.isPrefixOf s.data

/-- Decimal digits of a natural number, most significant first, prepended
to an accumulator.  Structural recursion on a fuel bound (the number
itself suffices, since `n / 10 < n` for `n ≥ 1`). -/
def natToCharsAux : Nat → Nat → List Char → List Char
  | 0, _, acc => acc
  | fuel + 1, n, acc =>
    if n = 0 then acc
    else natToCharsAux fuel (n / 10) (Char.ofNat (48 + n % 10) :: acc)

/-- Decimal representation of a natural number. -/
def natToChars (n : Nat) : List Char :=
  if n = 0 then ['0'] else natToCharsAux n n []

/-- Model of JavaScript number-to-string for integral values, as used by
the template literal in `optionValue`. -/
def jsIntToString (i : Int) : String :=
  match i with
  | .ofNat n => String.mk (natToChars n)
  | .negSucc n => String.mk ('-' :: natToChars (n + 1))

/-! ## Wizard state codec (route.ts lines 135-143) -/

/-- `type AssignedProject = { id: number; name: string }` -/
structure AssignedProject where
  id : Int
  name : String
deriving DecidableEq, Repr

/-- ``optionValue(id, name) = `${id}::${encodeURIComponent(name)}` `` -/
def optionValue (id : Int) (name : String) : String :=
  jsIntToString id ++ "::" ++ encodeURIComponent name

/-- Result shape of `parseOptionValue`: `{ id: string | null; name: string }`. -/
structure ParsedOption where
  id : Option String
  name : String
deriving DecidableEq, Repr

/-- `id || null` from `parseOptionValue`. -/
def jsIdOrNull (s : String) : Option String := if s = "" then none else some s

/-- `parseOptionValue(v)`:
```
if (!v) return { id: null, name: "Project" }
const [id, enc] = v.split("::")
return { id: id || null, name: enc ? decodeURIComponent(enc) : "Project" }
```
The argument may be `undefined` (`none`); the overall `none` result models
the `URIError` that `decodeURIComponent` throws on a malformed escape,
which `parseOptionValue` does not catch. -/
def parseOptionValue (v : Option String) : Option ParsedOption :=
  match v with
  | none => some ⟨none, "Project"⟩
  | some s =>
    if s = "" then some ⟨none, "Project"⟩
    else
      let parts := jsSplit s "::"
      let id := (parts[0]?).getD ""
      match parts[1]? with
      | none => some ⟨jsIdOrNull id, "Project"⟩
      | some enc =>
        if enc = "" then some ⟨jsIdOrNull id, "Project"⟩
        else
          match decodeURIComponent enc with
          | none => none
          | some n => some ⟨jsIdOrNull id, n⟩

/-! ## Response builders (route.ts lines 145-207) -/

structure SelectOption where
  label : String
  value : String
deriving DecidableEq, Repr

/-- `{ type: 3, custom_id, placeholder, options }` -/
structure SelectMenu where
  type : Nat
  custom_id : String
  placeholder : String
  options : List SelectOption
deriving DecidableEq, Repr

/-- `{ type: 1, components: [...] }` -/
structure ActionRow where
  type : Nat
  components : List SelectMenu
deriving DecidableEq, Repr

/-- `buildProjectSelect(customId, projects, placeholder)` -/
def buildProjectSelect (customId : String) (projects : List AssignedProject)
    (placeholder : String) : ActionRow :=
  ⟨1, [⟨3, customId, placeholder,
        (projects.take 25).map fun p => ⟨p.name, optionValue p.id p.name⟩⟩]⟩

/-- `buildStatusSelect(customId)` -/
def buildStatusSelect (customId : String) : ActionRow :=
  ⟨1, [⟨3, customId, "Pick a status", [⟨"completed", "completed"⟩]⟩]⟩

/-- One `{ type: 4, ... }` text input of the progress modal. -/
structure TextInputRow where
  custom_id : String
  label : String
  style : Nat
  required : Bool
  min_length : Option Nat
  max_length : Option Nat
deriving DecidableEq, Repr

structure ProgressModal where
  title : String
  custom_id : String
  rows : List TextInputRow
deriving DecidableEq, Repr

/-- `buildProgressModal(projectId, projectName)` -/
def buildProgressModal (projectId projectName : String) : ProgressModal :=
  ⟨"Post a recent update",
   "progress_modal:" ++ projectId ++ ":" ++ encodeURIComponent projectName,
   [⟨"title_input", "Title", 1, true, some 3, some 120⟩,
    ⟨"desc_input", "Description (optional)", 2, false, none, some 2000⟩]⟩

/-! ## BackendGateway and the request environment -/

/-- Parsed body of a successful `assigned-projects` fetch: either a JSON
array (cast unchecked to `AssignedProject[]`) or any non-array value. -/
inductive BackendData where
  | arr (ps : List AssignedProject)
  | nonArray
deriving Repr

/-- Trace of the handler's outbound calls. -/
inductive Effect where
  | fetchAssignedProjects (discordId : String)
  | callCompleteActiveMilestone (projectId : Option String) (userId : String)
  | callPostProgress (projectId : Option String) (title description userId : String)
  | followup (content : String) (ephemeral : Bool) (delivered : Bool)
  | followupSkipped
deriving DecidableEq, Repr

/-- Outcomes of the fetches the handler may perform, together with the
ambient configuration (`config.*`, `DEBUG_TO_DISCORD`). -/
structure Env where
  debugToDiscord : Bool
  discordAppId : Option String
  serviceBotToken : Option String
  assignedProjectsResult : Except String BackendData
  milestoneResult : Except String Unit
  progressResult : Except String Unit
  followupResult1 : Except String Unit
  followupResult2 : Except String Unit

/-- `getAssignedProjects(discordId, base)`: performs the fetch (recorded as
an effect), propagates a fetch failure, and returns `[]` when the parsed
body is not an array (`Array.isArray(data) ? data : []`). -/
def getAssignedProjects (discordId : String) (result : Except String BackendData) :
    Except String (List AssignedProject) × List Effect :=
  (match result with
   | .error e => .error e
   | .ok d =>
     .ok (match d with
          | .arr ps => ps
          | .nonArray => []),
   [.fetchAssignedProjects discordId])

/-- `completeActiveMilestone(base, projectId, userId)`: throws a
configuration error when `config.serviceBotToken` is falsy, otherwise the
PATCH fetch's outcome decides.  The invocation is recorded as the
BackendGateway effect. -/
def completeActiveMilestone (serviceBotToken : Option String)
    (milestoneResult : Except String Unit) (projectId : Option String)
    (userId : String) : Except String Unit × List Effect :=
  (if (serviceBotToken.getD "") = "" then
     .error "Server misconfigured: SERVICE_BOT_TOKEN"
   else milestoneResult,
   [.callCompleteActiveMilestone projectId userId])

/-- `postProgress(base, projectId, title, description, userId)`. -/
def postProgress (serviceBotToken : Option String)
    (progressResult : Except String Unit) (projectId : Option String)
    (title description userId : String) : Except String Unit × List Effect :=
  (if (serviceBotToken.getD "") = "" then
     .error "Server misconfigured: SERVICE_BOT_TOKEN"
   else progressResult,
   [.callPostProgress projectId title description userId])

/-- `sendFollowup(applicationId, token, content, ephemeral)`: skips when
both application ids are falsy or the token is falsy, otherwise POSTs the
follow-up; any fetch error is caught and logged, never rethrown. -/
def sendFollowup (applicationId configAppId token : Option String)
    (content : String) (ephemeral : Bool) (outcome : Except String Unit) :
    List Effect :=
  let appId := jsOr (applicationId.getD "") (configAppId.getD "")
  if appId = "" || (token.getD "") = "" then [.followupSkipped]
  else [.followup content ephemeral (match outcome with | .ok _ => true | .error _ => false)]

/-! ## Inbound interaction, signature verification -/

/-- `body.data`: the fields the handler reads, each possibly absent.
`modalRows` models `body.data.components[i].components[0]` — `none` when
the row has no usable input, `some (custom_id, value)` otherwise. -/
structure InteractionData where
  name : Option String
  custom_id : Option String
  values : List String
  modalRows : List (Option (String × String))
deriving DecidableEq, Repr

/-- The parsed interaction body. -/
structure Interaction where
  type : Nat
  memberUserId : Option String
  userId : Option String
  token : Option String
  application_id : Option String
  data : InteractionData
deriving DecidableEq, Repr

/-- Signature-check inputs: the two headers, `config.discordPublicKey`
(the empty string when unset), and `nacl.sign.detached.verify` abstracted
as an oracle taking the hex signature, the message `timestamp ++ rawBody`,
and the hex public key. -/
structure VerifyEnv where
  sigHeader : Option String
  tsHeader : Option String
  publicKey : String
  verify : String → String → String → Bool

/-- `verifySignature(req, rawBody)` (route.ts lines 35-44). -/
def verifySignature (venv : VerifyEnv) (rawBody : String) : Bool :=
  let sig := venv.sigHeader.getD ""
  let ts := venv.tsHeader.getD ""
  if sig = "" || ts = "" || venv.publicKey = "" then false
  else venv.verify sig (ts ++ rawBody) venv.publicKey

/-! ## Responses and the POST dispatcher -/

/-- The six callback shapes the handler returns, keeping only the data the
code actually sets.  `message` is callback type 4, `deferredMessage` 5,
`deferredUpdate` 6, `update` 7, `modal` 9. -/
inductive InteractionResponse where
  | pong
  | message (content : String) (flags : Nat) (components : List ActionRow)
  | deferredMessage
  | deferredUpdate
  | update (content : String) (flags : Nat) (components : List ActionRow)
  | modal (m : ProgressModal)
deriving DecidableEq, Repr

/-- What the POST route hands back to the HTTP layer: a 401, a JSON
response, or an uncaught JavaScript exception (named by its kind). -/
inductive PostOutcome where
  | unauthorized
  | response (r : InteractionResponse)
  | thrown (err : String)
deriving DecidableEq, Repr

/-- Result of one request: the outcome, the effects awaited before the
response is produced, and the effects scheduled to run detached after the
response is in flight (this revision schedules none). -/
structure PostResult where
  outcome : PostOutcome
  effects : List Effect
  detached : List Effect
deriving DecidableEq, Repr

/-- `EPHEMERAL = 1 << 6` -/
def EPHEMERAL : Nat := 1 <<< 6

/-- `decodeURIComponent(parts[2] || "Project")` on `custom_id.split(":")`,
shared by the `set_status:` and `progress_modal:` branches. -/
def customIdProjectName (cid : String) : Option String :=
  decodeURIComponent (jsOr (((jsSplit cid ":")[2]?).getD "") "Project")

/-- `fields[key] || ""` after the modal-row collection loop; later rows
overwrite earlier assignments to the same key. -/
def fieldValue (rows : List (Option (String × String))) (key : String) : String :=
  match ((rows.filterMap id).reverse.find? fun kv => kv.1 == key) with
  | some kv => kv.2
  | none => ""

/-- Handler for `InteractionType.APPLICATION_COMMAND` (route.ts 272-335). -/
def handleCommand (env : Env) (userId : String) (body : Interaction) : PostResult :=
  if body.data.name = some "progress-update" then
    let fetched := getAssignedProjects userId env.assignedProjectsResult
    match fetched.1 with
    | .error e =>
      let msg := if env.debugToDiscord then "❌ Error: " ++ jsOr e "failed to load projects"
                 else "❌ Error loading projects"
      ⟨.response (.message msg EPHEMERAL []), fetched.2, []⟩
    | .ok projects =>
      if projects.isEmpty then
        ⟨.response (.message "No projects are assigned to you yet." EPHEMERAL []), fetched.2, []⟩
      else
        ⟨.response (.message "Choose the project you want to post a recent update for:" EPHEMERAL
            [buildProjectSelect "pick_project_for_progress" projects "Select a project"]),
         fetched.2, []⟩
  else if body.data.name = some "milestone-status" then
    let fetched := getAssignedProjects userId env.assignedProjectsResult
    match fetched.1 with
    | .error e =>
      let msg := if env.debugToDiscord then "❌ Error: " ++ jsOr e "failed to load projects"
                 else "❌ Error loading projects"
      ⟨.response (.message msg EPHEMERAL []), fetched.2, []⟩
    | .ok projects =>
      if projects.isEmpty then
        ⟨.response (.message "No projects are assigned to you yet." EPHEMERAL []), fetched.2, []⟩
      else
        ⟨.response (.message "Choose the project whose active milestone you want to update:" EPHEMERAL
            [buildProjectSelect "pick_project_for_milestone" projects "Select a project"]),
         fetched.2, []⟩
  else
    ⟨.response (.message "Unknown command." EPHEMERAL []), [], []⟩

/-- The `custom_id.startsWith("set_status:")` branch (route.ts 379-420).
The work is awaited before the deferred acknowledgement is returned. -/
def handleSetStatus (env : Env) (userId : String) (body : Interaction) (cid : String) :
    PostResult :=
  let parts := jsSplit cid ":"
  let projectId := parts[1]?
  match customIdProjectName cid with
  | none => ⟨.thrown "URIError", [], []⟩
  | some projectName =>
    let choice := (body.data.values[0]?).getD ""
    if choice ≠ "completed" then
      ⟨.response (.update ("You picked `" ++ choice ++
          "`. Via Discord you can only mark the active milestone as `completed`. " ++
          "No changes were made.") EPHEMERAL []), [], []⟩
    else
      let r1 := completeActiveMilestone env.serviceBotToken env.milestoneResult projectId userId
      match r1.1 with
      | .ok _ =>
        let e2 := sendFollowup body.application_id env.discordAppId body.token
          ("🎯 **" ++ projectName ++ "** — active milestone **marked completed** by <@" ++
           userId ++ ">") false env.followupResult1
        let e3 := sendFollowup body.application_id env.discordAppId body.token
          ("Done. Active milestone marked **completed** for **" ++ projectName ++ "**.")
          true env.followupResult2
        ⟨.response .deferredUpdate, r1.2 ++ e2 ++ e3, []⟩
      | .error e =>
        let msg := if env.debugToDiscord then
            "❌ Error updating milestone: " ++ jsOr e "unknown error"
          else "❌ Failed to update milestone"
        ⟨.response .deferredUpdate,
         r1.2 ++ sendFollowup body.application_id env.discordAppId body.token msg true
           env.followupResult1, []⟩

/-- Handler for `InteractionType.MESSAGE_COMPONENT` (route.ts 338-426).
`parseOptionValue(values[0])` runs before any dispatch on `custom_id`; an
absent `custom_id` reaches `customId.startsWith(...)` and throws a
`TypeError`. -/
def handleComponent (env : Env) (userId : String) (body : Interaction) : PostResult :=
  match parseOptionValue body.data.values[0]? with
  | none => ⟨.thrown "URIError", [], []⟩
  | some picked =>
    match body.data.custom_id with
    | none => ⟨.thrown "TypeError", [], []⟩
    | some cid =>
      if cid = "pick_project_for_progress" then
        match picked.id with
        | none => ⟨.response (.message "❌ No project selected." EPHEMERAL []), [], []⟩
        | some pid => ⟨.response (.modal (buildProgressModal pid picked.name)), [], []⟩
      else if cid = "pick_project_for_milestone" then
        match picked.id with
        | none => ⟨.response (.message "❌ No project selected." EPHEMERAL []), [], []⟩
        | some pid =>
          let statusCustomId := "set_status:" ++ pid ++ ":" ++ encodeURIComponent picked.name
          ⟨.response (.update
              ("Pick a status to apply to the **active milestone**.\n" ++
               "_Note: you can only actually **apply** `completed`. Choosing anything else will just inform you._")
              EPHEMERAL [buildStatusSelect statusCustomId]), [], []⟩
      else if jsStartsWith cid "set_status:" then
        handleSetStatus env userId body cid
      else
        ⟨.response (.message "Unknown action." EPHEMERAL []), [], []⟩

/-- Handler for `InteractionType.MODAL_SUBMIT` (route.ts 429-473). -/
def handleModal (env : Env) (userId : String) (body : Interaction) : PostResult :=
  match body.data.custom_id with
  | none => ⟨.thrown "TypeError", [], []⟩
  | some cid =>
    if jsStartsWith cid "progress_modal:" then
      let parts := jsSplit cid ":"
      let projectId := parts[1]?
      match customIdProjectName cid with
      | none => ⟨.thrown "URIError", [], []⟩
      | some projectName =>
        let title := fieldValue body.data.modalRows "title_input"
        let description := fieldValue body.data.modalRows "desc_input"
        let r1 := postProgress env.serviceBotToken env.progressResult projectId title
          description userId
        match r1.1 with
        | .ok _ =>
          let e2 := sendFollowup body.application_id env.discordAppId body.token
            ("📝 **" ++ projectName ++ "** — recent update from <@" ++ userId ++ ">\n" ++
             "**Title:** " ++ title ++ "\n" ++
             (if description ≠ "" then "**Description:** " ++ description
              else "**Description:** _none_")) false env.followupResult1
          let e3 := sendFollowup body.application_id env.discordAppId body.token
            ("✅ Posted a recent update to **" ++ projectName ++ "**.") true env.followupResult2
          ⟨.response .deferredMessage, r1.2 ++ e2 ++ e3, []⟩
        | .error e =>
          let msg := if env.debugToDiscord then "❌ Error: " ++ jsOr e "failed to post update"
                     else "❌ Failed to post update"
          ⟨.response .deferredMessage,
           r1.2 ++ sendFollowup body.application_id env.discordAppId body.token msg true
             env.followupResult1, []⟩
    else
      ⟨.response (.message "Unknown modal." EPHEMERAL []), [], []⟩

/-- `POST(req)` (route.ts 245-479).  `raw` is the request text; `body` is
its parsed JSON, supplied directly since the claims quantify over parsed
interactions. -/
def POST (venv : VerifyEnv) (env : Env) (raw : String) (body : Interaction) : PostResult :=
  if verifySignature venv raw = false then ⟨.unauthorized, [], []⟩
  else if body.type = 1 then ⟨.response .pong, [], []⟩
  else
    let userId := jsOr (body.memberUserId.getD "") (jsOr (body.userId.getD "") "")
    if body.type = 2 then handleCommand env userId body
    else if body.type = 3 then handleComponent env userId body
    else if body.type = 5 then handleModal env userId body
    else ⟨.response (.message "Unsupported interaction." EPHEMERAL []), [], []⟩

/-! ## Predicates used by the statements -/

/-- Effects that are BackendGateway calls. -/
def isBackendCall : Effect → Bool
  | .fetchAssignedProjects _ => true
  | .callCompleteActiveMilestone _ _ => true
  | .callPostProgress _ _ _ _ => true
  | _ => false

/-- Effects that are invocations of `completeActiveMilestone`. -/
def isCompleteCall : Effect → Bool
  | .callCompleteActiveMilestone _ _ => true
  | _ => false

/-- A direct Response that is an immediate message or an in-place update
must carry bit 6 (the ephemeral flag) in its `data.flags`. -/
def ephemeralOK : InteractionResponse → Bool
  | .message _ f _ => f.testBit 6
  | .update _ f _ => f.testBit 6
  | _ => true

/-! ## Concrete fixtures for witnesses and counterexamples -/

/-- An environment where every fetch succeeds. -/
def env0 : Env :=
  { debugToDiscord := false, discordAppId := some "app", serviceBotToken := some "tok",
    assignedProjectsResult := .ok (.arr [{ id := 7, name := "Alpha" }]),
    milestoneResult := .ok (), progressResult := .ok (),
    followupResult1 := .ok (), followupResult2 := .ok () }

/-- Headers present and a verifier that accepts. -/
def venvOK : VerifyEnv :=
  { sigHeader := some "aa", tsHeader := some "1", publicKey := "pk",
    verify := fun _ _ _ => true }

/-- Same but with the signature header absent. -/
def venvNoSig : VerifyEnv :=
  { sigHeader := none, tsHeader := some "1", publicKey := "pk",
    verify := fun _ _ _ => true }

def mkBody (t : Nat) (d : InteractionData) : Interaction :=
  { type := t, memberUserId := some "u1", userId := none, token := some "tk",
    application_id := some "app", data := d }

def noData : InteractionData :=
  { name := none, custom_id := none, values := [], modalRows := [] }

/-! ## Claims -/

/-- C7: `verifySignature` returns true iff the detached signature verifies
over `timestamp ++ rawBody` under the configured public key; a missing
signature header, timestamp header, or key yields false; and whenever it
returns false the handler returns the 401 authentication error with no
effects and a result independent of the parsed body, so no interaction
data of an unverified request is ever inspected. -/
theorem C7_signature_gate :
    (∀ (venv : VerifyEnv) (raw : String),
      verifySignature venv raw = true ↔
        (venv.sigHeader.getD "" ≠ "" ∧ venv.tsHeader.getD "" ≠ "" ∧
         venv.publicKey ≠ "" ∧
         venv.verify (venv.sigHeader.getD "") (venv.tsHeader.getD "" ++ raw)
           venv.publicKey = true)) ∧
    (∀ (venv : VerifyEnv) (env : Env) (raw : String) (body : Interaction),
      verifySignature venv raw = false →
        POST venv env raw body = ⟨.unauthorized, [], []⟩) := by
  constructor
  · intro venv raw
    unfold verifySignature
    by_cases h1 : venv.sigHeader.getD "" = "" <;>
      by_cases h2 : venv.tsHeader.getD "" = "" <;>
        by_cases h3 : venv.publicKey = "" <;>
          simp [h1, h2, h3]
  · intro venv env raw body h
    unfold POST
    rw [h]
    simp

/-- C7 witness: with the signature header absent, verification fails and
the handler returns the 401 outcome untouched by the body. -/
theorem C7_signature_gate_witness :
    POST venvNoSig env0 "r" (mkBody 1 noData) = ⟨.unauthorized, [], []⟩ :=
  C7_signature_gate.2 venvNoSig env0 "r" (mkBody 1 noData) (by decide)

/-- C9: when the assigned-projects fetch succeeds but its parsed body is
not a JSON array, `getAssignedProjects` returns the empty list and the
command handler replies with the ephemeral "No projects are assigned to
you yet." message rather than an error response. -/
theorem C9_nonarray_empty_projects :
    ∀ (venv : VerifyEnv) (env : Env) (raw : String) (body : Interaction),
      verifySignature venv raw = true →
      body.type = 2 →
      (body.data.name = some "progress-update" ∨
       body.data.name = some "milestone-status") →
      env.assignedProjectsResult = .ok .nonArray →
      (∀ discordId,
        (getAssignedProjects discordId env.assignedProjectsResult).1 = .ok []) ∧
      (POST venv env raw body).outcome =
        .response (.message "No projects are assigned to you yet." EPHEMERAL []) := by
  intro venv env raw body hv ht hname hres
  constructor
  · intro discordId
    rw [hres]
    rfl
  · unfold POST
    rw [hv, ht]
    simp only [Bool.true_eq_false, if_false, OfNat.ofNat_ne_one, if_true, reduceIte]
    rcases hname with h | h <;>
      · unfold handleCommand getAssignedProjects
        rw [h, hres]
        simp

/-- C9 witness: concrete non-array environment. -/
theorem C9_nonarray_empty_projects_witness :
    (POST venvOK { env0 with assignedProjectsResult := .ok .nonArray } "r"
        (mkBody 2 { noData with name := some "progress-update" })).outcome =
      .response (.message "No projects are assigned to you yet." EPHEMERAL []) :=
  (C9_nonarray_empty_projects venvOK
    { env0 with assignedProjectsResult := .ok .nonArray } "r"
    (mkBody 2 { noData with name := some "progress-update" })
    (by decide) (by decide) (Or.inl rfl) rfl).2

/-- C8: for a non-empty project list the picker is one single-select row
whose options are exactly the first `min 25 length` projects in input
order (never more than 25), each option's value produced by the codec as
`id::urlEncodedName`. -/
theorem C8_project_select_shape :
    ∀ (cid : String) (projects : List AssignedProject) (ph : String),
      projects ≠ [] →
      buildProjectSelect cid projects ph =
        ⟨1, [⟨3, cid, ph,
          (projects.take 25).map fun p => ⟨p.name, optionValue p.id p.name⟩⟩]⟩ ∧
      ((projects.take 25).map fun p =>
          SelectOption.mk p.name (optionValue p.id p.name)).length =
        min 25 projects.length ∧
      min 25 projects.length ≤ 25 := by
  intro cid projects ph _
  refine ⟨rfl, ?_, ?_⟩
  · simp [List.length_take]
  · exact min_le_left _ _

/-- C8 witness: a singleton project list. -/
theorem C8_project_select_shape_witness :
    ([{ id := 7, name := "Alpha" }] : List AssignedProject) ≠ [] ∧
    (buildProjectSelect "pick_project_for_progress" [{ id := 7, name := "Alpha" }]
        "Select a project" =
      ⟨1, [⟨3, "pick_project_for_progress", "Select a project",
        (([{ id := 7, name := "Alpha" }] : List AssignedProject).take 25).map
          fun p => ⟨p.name, optionValue p.id p.name⟩⟩]⟩ ∧
     ((([{ id := 7, name := "Alpha" }] : List AssignedProject).take 25).map
        fun p => SelectOption.mk p.name (optionValue p.id p.name)).length =
       min 25 ([{ id := 7, name := "Alpha" }] : List AssignedProject).length ∧
     min 25 ([{ id := 7, name := "Alpha" }] : List AssignedProject).length ≤ 25) :=
  ⟨by decide,
   C8_project_select_shape "pick_project_for_progress" [{ id := 7, name := "Alpha" }]
     "Select a project" (by decide)⟩

/-- No effect emitted by `sendFollowup` is a `completeActiveMilestone`
invocation. -/
theorem countP_sendFollowup_complete (a b t : Option String) (c : String)
    (e : Bool) (o : Except String Unit) :
    (sendFollowup a b t c e o).countP (fun x => isCompleteCall x) = 0 := by
  unfold sendFollowup
  dsimp only
  split <;> rfl

/-- A `custom_id` starting with `set_status:` is neither of the two
project-picker ids. -/
theorem ne_pick_of_startsWith_set_status (cid : String)
    (h : jsStartsWith cid "set_status:" = true) :
    cid ≠ "pick_project_for_progress" ∧ cid ≠ "pick_project_for_milestone" := by
  constructor <;> intro hc <;> rw [hc] at h <;> exact absurd h (by decide)

/-- C6 counterexample: a `set_status:*` component action whose chosen
value is not "completed" but whose encoded name segment is an invalid
percent-escape makes the handler throw a `URIError` instead of returning
the in-place-update no-change message. -/
theorem C6_no_change_counterexample :
    POST venvOK env0 "r"
        (mkBody 3 { noData with custom_id := some "set_status:42:%zz",
                                values := ["paused"] }) =
      ⟨.thrown "URIError", [], []⟩ := by
  decide

/-- C6 (amended): for a `set_status:*` component action whose name segment
decodes and whose selected value parses without a `URIError`, a chosen
value other than "completed" yields no BackendGateway call (no effects at
all) and a terminal in-place-update message stating no change was made. -/
theorem C6_no_change_no_call :
    ∀ (venv : VerifyEnv) (env : Env) (raw : String) (body : Interaction) (cid : String),
      verifySignature venv raw = true →
      body.type = 3 →
      body.data.custom_id = some cid →
      jsStartsWith cid "set_status:" = true →
      (customIdProjectName cid).isSome →
      parseOptionValue body.data.values[0]? ≠ none →
      (body.data.values[0]?).getD "" ≠ "completed" →
      POST venv env raw body =
        ⟨.response (.update ("You picked `" ++ (body.data.values[0]?).getD "" ++
            "`. Via Discord you can only mark the active milestone as `completed`. " ++
            "No changes were made.") EPHEMERAL []), [], []⟩ := by
  intro venv env raw body cid hv ht hcid hstart hname hparse hchoice
  obtain ⟨hne1, hne2⟩ := ne_pick_of_startsWith_set_status cid hstart
  unfold POST
  rw [hv, ht]
  simp only [Bool.true_eq_false, if_false, reduceIte]
  unfold handleComponent
  obtain ⟨picked, hpicked⟩ := Option.ne_none_iff_exists'.mp hparse
  rw [hpicked, hcid]
  simp only [hne1, hne2, hstart, if_false, if_true, reduceIte]
  unfold handleSetStatus
  obtain ⟨pn, hpn⟩ := Option.isSome_iff_exists.mp hname
  rw [hpn]
  rw [if_neg (by decide : ¬(3 = 1)), if_neg (by decide : ¬(3 = 2))]
  dsimp only
  rw [if_pos hchoice]

/-- C6 witness: decodable name segment, choice "paused". -/
theorem C6_no_change_no_call_witness :
    POST venvOK env0 "r"
        (mkBody 3 { noData with custom_id := some "set_status:42:Alpha",
                                values := ["paused"] }) =
      ⟨.response (.update ("You picked `" ++
          ((mkBody 3 { noData with custom_id := some "set_status:42:Alpha",
                                   values := ["paused"] }).data.values[0]?).getD "" ++
          "`. Via Discord you can only mark the active milestone as `completed`. " ++
          "No changes were made.") EPHEMERAL []), [], []⟩ :=
  C6_no_change_no_call venvOK env0 "r"
    (mkBody 3 { noData with custom_id := some "set_status:42:Alpha",
                            values := ["paused"] })
    "set_status:42:Alpha" (by decide) (by decide) rfl (by decide) (by decide)
    (by decide) (by decide)

/-- C5 counterexample: a `set_status:*` component action with chosen value
"completed" whose encoded name segment is an invalid percent-escape throws
before `completeActiveMilestone` is ever invoked, so the invocation count
is zero, not one. -/
theorem C5_completed_counterexample :
    POST venvOK env0 "r"
        (mkBody 3 { noData with custom_id := some "set_status:42:%zz",
                                values := ["completed"] }) =
      ⟨.thrown "URIError", [], []⟩ := by
  decide

/-- C5 (amended): for a `set_status:*` component action whose name segment
decodes without error and whose chosen value is "completed",
`completeActiveMilestone` is invoked exactly once — for every outcome of
the milestone call and of the follow-up completion calls — and the
returned Response is the deferred update. -/
theorem C5_completed_exactly_once :
    ∀ (venv : VerifyEnv) (env : Env) (raw : String) (body : Interaction) (cid : String),
      verifySignature venv raw = true →
      body.type = 3 →
      body.data.custom_id = some cid →
      jsStartsWith cid "set_status:" = true →
      (customIdProjectName cid).isSome →
      body.data.values[0]? = some "completed" →
      (POST venv env raw body).effects.countP (fun x => isCompleteCall x) = 1 ∧
      (POST venv env raw body).detached = [] ∧
      (POST venv env raw body).outcome = .response .deferredUpdate := by
  intro venv env raw body cid hv ht hcid hstart hname hval
  obtain ⟨hne1, hne2⟩ := ne_pick_of_startsWith_set_status cid hstart
  unfold POST
  rw [hv, ht]
  simp only [Bool.true_eq_false, if_false, reduceIte]
  unfold handleComponent
  rw [hval, hcid]
  rw [show parseOptionValue (some "completed") =
        some ⟨some "completed", "Project"⟩ from by decide]
  simp only [hne1, hne2, hstart, if_false, if_true, reduceIte]
  unfold handleSetStatus
  obtain ⟨pn, hpn⟩ := Option.isSome_iff_exists.mp hname
  rw [hpn, hval]
  rw [if_neg (by decide : ¬(3 = 1)), if_neg (by decide : ¬(3 = 2))]
  simp only [Option.getD_some, ne_eq, not_true_eq_false, reduceIte]
  unfold completeActiveMilestone
  dsimp only
  split <;>
    exact ⟨by simp only [List.countP_append, countP_sendFollowup_complete]; rfl, rfl, rfl⟩

/-- C5 witness: everything succeeds; the milestone call appears once. -/
theorem C5_completed_exactly_once_witness :
    (POST venvOK env0 "r"
        (mkBody 3 { noData with custom_id := some "set_status:42:Alpha",
                                values := ["completed"] })).effects.countP
        (fun x => isCompleteCall x) = 1 ∧
    (POST venvOK env0 "r"
        (mkBody 3 { noData with custom_id := some "set_status:42:Alpha",
                                values := ["completed"] })).detached = [] ∧
    (POST venvOK env0 "r"
        (mkBody 3 { noData with custom_id := some "set_status:42:Alpha",
                                values := ["completed"] })).outcome =
      .response .deferredUpdate :=
  C5_completed_exactly_once venvOK env0 "r"
    (mkBody 3 { noData with custom_id := some "set_status:42:Alpha",
                            values := ["completed"] })
    "set_status:42:Alpha" (by decide) (by decide) rfl (by decide) (by decide) rfl

/-- C1 counterexample: a component action whose selected option value
`"1::%"` carries an un-decodable percent-escape makes the handler throw a
`URIError` — it does not fall back to a generic label and returns no
Response. -/
theorem C1_malformed_counterexample :
    POST venvOK env0 "r"
        (mkBody 3 { noData with custom_id := some "pick_project_for_progress",
                                values := ["1::%"] }) =
      ⟨.thrown "URIError", [], []⟩ := by
  decide

/-- C1 (amended): decoding tolerates missing segments — an absent or empty
value and a missing or empty encoded-name segment yield safe defaults
(`id = null` ⇒ "no selection", name `"Project"`), and an interaction with
no selected value gets the "❌ No project selected." Response — but a
segment with an un-decodable percent-escape raises a `URIError` that
escapes `parseOptionValue` instead of falling back. -/
theorem C1_malformed_safe_defaults :
    (∀ v : Option String, v = none ∨ v = some "" →
        parseOptionValue v = some ⟨none, "Project"⟩) ∧
    (∀ s : String,
        (jsSplit s "::")[1]? = none ∨ (jsSplit s "::")[1]? = some "" →
        parseOptionValue (some s) =
          some ⟨jsIdOrNull (((jsSplit s "::")[0]?).getD ""), "Project"⟩) ∧
    (∀ s enc : String, (jsSplit s "::")[1]? = some enc → enc ≠ "" →
        decodeURIComponent enc = none → parseOptionValue (some s) = none) ∧
    (∀ (venv : VerifyEnv) (env : Env) (raw : String) (body : Interaction),
        verifySignature venv raw = true → body.type = 3 →
        body.data.values = [] →
        body.data.custom_id = some "pick_project_for_progress" →
        (POST venv env raw body).outcome =
          .response (.message "❌ No project selected." EPHEMERAL [])) := by
  refine ⟨?_, ?_, ?_, ?_⟩
  · rintro v (h | h) <;> subst h <;> rfl
  · intro s h
    by_cases hs : s = ""
    · subst hs; decide
    · unfold parseOptionValue
      dsimp only
      rw [if_neg hs]
      rcases h with h | h <;> simp only [h]
      rfl
  · intro s enc h hne hdec
    by_cases hs : s = ""
    · subst hs
      rw [show ((jsSplit "" "::")[1]? : Option String) = none from by decide] at h
      exact Option.noConfusion h
    · unfold parseOptionValue
      dsimp only
      rw [if_neg hs]
      simp only [h, hdec]
      rw [if_neg hne]
  · intro venv env raw body hv ht hvals hcid
    unfold POST
    rw [hv, ht]
    simp only [Bool.true_eq_false, reduceIte]
    unfold handleComponent
    rw [hvals, hcid]
    rfl

/-- C1 witness: concrete instances of each amended conjunct. -/
theorem C1_malformed_safe_defaults_witness :
    parseOptionValue none = some ⟨none, "Project"⟩ ∧
    parseOptionValue (some "5::") =
      some ⟨jsIdOrNull (((jsSplit "5::" "::")[0]?).getD ""), "Project"⟩ ∧
    parseOptionValue (some "1::%") = none ∧
    (POST venvOK env0 "r"
        (mkBody 3 { noData with
          custom_id := some "pick_project_for_progress" })).outcome =
      .response (.message "❌ No project selected." EPHEMERAL []) :=
  ⟨C1_malformed_safe_defaults.1 none (Or.inl rfl),
   C1_malformed_safe_defaults.2.1 "5::" (Or.inr (by decide)),
   C1_malformed_safe_defaults.2.2.1 "1::%" "%" (by decide) (by decide) (by decide),
   C1_malformed_safe_defaults.2.2.2 venvOK env0 "r"
     (mkBody 3 { noData with custom_id := some "pick_project_for_progress" })
     (by decide) rfl rfl rfl⟩

/-- C3 counterexample: a component action with no `custom_id` at all makes
the dispatcher throw a `TypeError` (`customId.startsWith` on `undefined`)
instead of returning a terminal ephemeral Response. -/
theorem C3_unhandled_counterexample :
    POST venvOK env0 "r" (mkBody 3 noData) = ⟨.thrown "TypeError", [], []⟩ := by
  decide

/-- C3 (amended): every unrecognized interaction type, unknown command
name, component action whose present `custom_id` matches no known tag
(and whose selected value parses without a `URIError`), and modal
submission whose present `custom_id` matches no known tag, receives a
structurally valid terminal ephemeral Response; an absent `custom_id`
instead raises a `TypeError`. -/
theorem C3_unhandled_fallbacks :
    (∀ (venv : VerifyEnv) (env : Env) (raw : String) (body : Interaction),
        verifySignature venv raw = true →
        body.type ≠ 1 → body.type ≠ 2 → body.type ≠ 3 → body.type ≠ 5 →
        POST venv env raw body =
          ⟨.response (.message "Unsupported interaction." EPHEMERAL []), [], []⟩) ∧
    (∀ (venv : VerifyEnv) (env : Env) (raw : String) (body : Interaction),
        verifySignature venv raw = true → body.type = 2 →
        body.data.name ≠ some "progress-update" →
        body.data.name ≠ some "milestone-status" →
        POST venv env raw body =
          ⟨.response (.message "Unknown command." EPHEMERAL []), [], []⟩) ∧
    (∀ (venv : VerifyEnv) (env : Env) (raw : String) (body : Interaction)
        (cid : String),
        verifySignature venv raw = true → body.type = 3 →
        body.data.custom_id = some cid →
        parseOptionValue body.data.values[0]? ≠ none →
        cid ≠ "pick_project_for_progress" →
        cid ≠ "pick_project_for_milestone" →
        jsStartsWith cid "set_status:" = false →
        POST venv env raw body =
          ⟨.response (.message "Unknown action." EPHEMERAL []), [], []⟩) ∧
    (∀ (venv : VerifyEnv) (env : Env) (raw : String) (body : Interaction)
        (cid : String),
        verifySignature venv raw = true → body.type = 5 →
        body.data.custom_id = some cid →
        jsStartsWith cid "progress_modal:" = false →
        POST venv env raw body =
          ⟨.response (.message "Unknown modal." EPHEMERAL []), [], []⟩) := by
  refine ⟨?_, ?_, ?_, ?_⟩
  · intro venv env raw body hv h1 h2 h3 h5
    unfold POST
    rw [hv]
    simp only [Bool.true_eq_false, if_false, reduceIte]
    rw [if_neg h1, if_neg h2, if_neg h3, if_neg h5]
  · intro venv env raw body hv ht hn1 hn2
    unfold POST
    rw [hv, ht]
    simp only [Bool.true_eq_false, reduceIte]
    unfold handleCommand
    rw [if_neg hn1, if_neg hn2]
    norm_num
  · intro venv env raw body cid hv ht hcid hparse hc1 hc2 hst
    unfold POST
    rw [hv, ht]
    simp only [Bool.true_eq_false, reduceIte]
    unfold handleComponent
    obtain ⟨picked, hpicked⟩ := Option.ne_none_iff_exists'.mp hparse
    rw [hpicked, hcid]
    dsimp only
    have hst2 : ¬ (jsStartsWith cid "set_status:" = true) := by simp [hst]
    rw [if_neg hc1, if_neg hc2, if_neg hst2]
    norm_num
  · intro venv env raw body cid hv ht hcid hst
    unfold POST
    rw [hv, ht]
    simp only [Bool.true_eq_false, reduceIte]
    unfold handleModal
    rw [hcid]
    dsimp only
    have hst2 : ¬ (jsStartsWith cid "progress_modal:" = true) := by simp [hst]
    rw [if_neg hst2]
    norm_num

/-- C3 witness: concrete instances (unknown type 4, unknown command,
unknown component action, unknown modal). -/
theorem C3_unhandled_fallbacks_witness :
    POST venvOK env0 "r" (mkBody 4 noData) =
      ⟨.response (.message "Unsupported interaction." EPHEMERAL []), [], []⟩ ∧
    POST venvOK env0 "r" (mkBody 2 { noData with name := some "zap" }) =
      ⟨.response (.message "Unknown command." EPHEMERAL []), [], []⟩ ∧
    POST venvOK env0 "r" (mkBody 3 { noData with custom_id := some "zap" }) =
      ⟨.response (.message "Unknown action." EPHEMERAL []), [], []⟩ ∧
    POST venvOK env0 "r" (mkBody 5 { noData with custom_id := some "zap" }) =
      ⟨.response (.message "Unknown modal." EPHEMERAL []), [], []⟩ :=
  ⟨C3_unhandled_fallbacks.1 venvOK env0 "r" (mkBody 4 noData)
     (by decide) (by decide) (by decide) (by decide) (by decide),
   C3_unhandled_fallbacks.2.1 venvOK env0 "r"
     (mkBody 2 { noData with name := some "zap" })
     (by decide) rfl (by decide) (by decide),
   C3_unhandled_fallbacks.2.2.1 venvOK env0 "r"
     (mkBody 3 { noData with custom_id := some "zap" }) "zap"
     (by decide) rfl rfl (by decide) (by decide) (by decide) (by decide),
   C3_unhandled_fallbacks.2.2.2 venvOK env0 "r"
     (mkBody 5 { noData with custom_id := some "zap" }) "zap"
     (by decide) rfl rfl (by decide)⟩

/-- `handleSetStatus` schedules no detached work. -/
theorem handleSetStatus_detached (env : Env) (u : String) (b : Interaction)
    (cid : String) : (handleSetStatus env u b cid).detached = [] := by
  unfold handleSetStatus
  dsimp only
  repeat' split
  all_goals rfl

/-- `handleCommand` schedules no detached work. -/
theorem handleCommand_detached (env : Env) (u : String) (b : Interaction) :
    (handleCommand env u b).detached = [] := by
  unfold handleCommand
  dsimp only
  repeat' split
  all_goals rfl

/-- `handleComponent` schedules no detached work. -/
theorem handleComponent_detached (env : Env) (u : String) (b : Interaction) :
    (handleComponent env u b).detached = [] := by
  unfold handleComponent
  repeat' split
  all_goals first
    | rfl
    | apply handleSetStatus_detached

/-- `handleModal` schedules no detached work. -/
theorem handleModal_detached (env : Env) (u : String) (b : Interaction) :
    (handleModal env u b).detached = [] := by
  unfold handleModal
  dsimp only
  repeat' split
  all_goals rfl

/-- C2: on a `set_status:*` "completed" action the handler performs its
BackendGateway call and both completion follow-ups synchronously, in the
awaited effect list produced before the deferred acknowledgement is
returned, and schedules nothing detached (for any request, the detached
list is empty) — the side effect does not wait for the Phase 1 response
to be in flight. -/
theorem C2_work_awaited_before_ack :
    POST venvOK env0 "r"
        (mkBody 3 { noData with custom_id := some "set_status:42:Alpha",
                                values := ["completed"] }) =
      ⟨.response .deferredUpdate,
       [.callCompleteActiveMilestone (some "42") "u1",
        .followup "🎯 **Alpha** — active milestone **marked completed** by <@u1>"
          false true,
        .followup "Done. Active milestone marked **completed** for **Alpha**."
          true true], []⟩ ∧
    (∀ (venv : VerifyEnv) (env : Env) (raw : String) (body : Interaction),
      (POST venv env raw body).detached = []) := by
  constructor
  · decide
  · intro venv env raw body
    unfold POST
    repeat' split
    all_goals first
      | rfl
      | apply handleCommand_detached
      | apply handleComponent_detached
      | apply handleModal_detached

/-- Every message/update Response produced by `handleCommand` is
ephemeral. -/
theorem handleCommand_ephemeral (env : Env) (u : String) (b : Interaction)
    (r : InteractionResponse) (h : (handleCommand env u b).outcome = .response r) :
    ephemeralOK r = true := by
  unfold handleCommand at h
  dsimp only at h
  repeat' split at h
  all_goals (injection h with h2; subst h2; rfl)

/-- Every message/update Response produced by `handleSetStatus` is
ephemeral. -/
theorem handleSetStatus_ephemeral (env : Env) (u : String) (b : Interaction)
    (cid : String) (r : InteractionResponse)
    (h : (handleSetStatus env u b cid).outcome = .response r) :
    ephemeralOK r = true := by
  unfold handleSetStatus at h
  dsimp only at h
  repeat' split at h
  all_goals first
    | (injection h with h2; subst h2; rfl)
    | (injection h)

/-- Every message/update Response produced by `handleComponent` is
ephemeral. -/
theorem handleComponent_ephemeral (env : Env) (u : String) (b : Interaction)
    (r : InteractionResponse) (h : (handleComponent env u b).outcome = .response r) :
    ephemeralOK r = true := by
  unfold handleComponent at h
  repeat' split at h
  all_goals first
    | (injection h with h2; subst h2; rfl)
    | (injection h)
    | exact handleSetStatus_ephemeral _ _ _ _ _ h

/-- Every message/update Response produced by `handleModal` is
ephemeral. -/
theorem handleModal_ephemeral (env : Env) (u : String) (b : Interaction)
    (r : InteractionResponse) (h : (handleModal env u b).outcome = .response r) :
    ephemeralOK r = true := by
  unfold handleModal at h
  dsimp only at h
  repeat' split at h
  all_goals first
    | (injection h with h2; subst h2; rfl)
    | (injection h)

/-- C10: every immediate-message (type 4) and in-place-update (type 7)
Response the dispatcher itself returns carries bit 6 — the ephemeral flag
— in its `data.flags`; the other direct Responses (pong, deferred kinds,
modal) carry no message flags at all, so non-ephemeral content can only
leave through the out-of-band follow-up effects. -/
theorem C10_direct_responses_ephemeral :
    ∀ (venv : VerifyEnv) (env : Env) (raw : String) (body : Interaction)
      (r : InteractionResponse),
      (POST venv env raw body).outcome = .response r → ephemeralOK r = true := by
  intro venv env raw body r h
  unfold POST at h
  repeat' split at h
  all_goals first
    | (injection h with h2; subst h2; rfl)
    | (injection h)
    | exact handleCommand_ephemeral _ _ _ _ h
    | exact handleComponent_ephemeral _ _ _ _ h
    | exact handleModal_ephemeral _ _ _ _ h

/-- C10 witness: the fallback Response for an unknown interaction type. -/
theorem C10_direct_responses_ephemeral_witness :
    ephemeralOK (.message "Unsupported interaction." EPHEMERAL []) = true :=
  C10_direct_responses_ephemeral venvOK env0 "r" (mkBody 4 noData)
    (.message "Unsupported interaction." EPHEMERAL []) (by decide)

/-! ## Round-trip machinery for the codec (claim C4) -/

/-- `hexVal` inverts `hexDigitChar` on bytes' nibbles. -/
theorem hexVal_hexDigitChar : ∀ n : Nat, n < 16 → hexVal (hexDigitChar n) = some n := by
  decide

/-- ASCII characters UTF-8-encode to their single code point. -/
theorem utf8EncodeChar_ascii (c : Char) (h : c.toNat < 128) :
    utf8EncodeChar c = [c.toNat] := by
  unfold utf8EncodeChar
  rw [if_pos h]

/-- The percent sign is escaped, so an unreserved character is not `%`. -/
theorem unreserved_ne_percent (c : Char) (h : isUnreservedURI c = true) :
    c.toNat ≠ 37 := by
  intro hc
  unfold isUnreservedURI at h
  rw [hc] at h
  exact absurd h (by decide)

/-- One-step unfolding of `uriBytes` at a literal character. -/
theorem uriBytes_cons_not_percent (c : Char) (t : List Char)
    (h : c.toNat ≠ 37) :
    uriBytes (c :: t) = (uriBytes t).map fun bs => utf8EncodeChar c ++ bs := by
  have hne : (c.toNat == 37) = false := by simp [h]
  match t with
  | [] => simp only [uriBytes, hne, Bool.false_eq_true, reduceIte]
  | [x] => simp only [uriBytes, hne, Bool.false_eq_true, reduceIte]
  | x :: y :: rest => simp only [uriBytes, hne, Bool.false_eq_true, reduceIte]

/-- One-step unfolding of `uriBytes` at a percent escape. -/
theorem uriBytes_percent_escape (hc lc : Char) (t : List Char) (a b : Nat)
    (hv : hexVal hc = some a) (lv : hexVal lc = some b) :
    uriBytes ('%' :: hc :: lc :: t) =
      (uriBytes t).map fun bs => (16 * a + b) :: bs := by
  simp only [uriBytes, show (('%' : Char).toNat == 37) = true from rfl,
    reduceIte, hv, lv]

/-- One encoded character decodes back to its byte, prepended to the
decoding of the remainder. -/
theorem uriBytes_encodeChar (c : Char) (t : List Char) (h2 : c.toNat ≤ 126) :
    uriBytes (encodeChar c ++ t) = (uriBytes t).map fun bs => c.toNat :: bs := by
  unfold encodeChar
  by_cases hu : isUnreservedURI c
  · rw [if_pos hu]
    simp only [List.cons_append, List.nil_append]
    rw [uriBytes_cons_not_percent c t (unreserved_ne_percent c hu)]
    rw [utf8EncodeChar_ascii c (by omega)]
    rfl
  · rw [if_neg hu]
    rw [utf8EncodeChar_ascii c (by omega)]
    have hhi : c.toNat / 16 < 16 := by omega
    have hlo : c.toNat % 16 < 16 := by omega
    simp only [concatMap, percentEscape, List.append_nil, List.cons_append,
      List.nil_append]
    rw [uriBytes_percent_escape _ _ t _ _ (hexVal_hexDigitChar _ hhi)
      (hexVal_hexDigitChar _ hlo)]
    have heq : 16 * (c.toNat / 16) + c.toNat % 16 = c.toNat := by omega
    simp only [heq]

/-- A printable-ASCII string's encoding decodes to its code points. -/
theorem uriBytes_concatMap (l : List Char)
    (h : ∀ c ∈ l, 32 ≤ c.toNat ∧ c.toNat ≤ 126) :
    uriBytes (concatMap encodeChar l) = some (l.map Char.toNat) := by
  induction l with
  | nil => rfl
  | cons c rest ih =>
    have hc := h c (List.mem_cons_self c rest)
    have hrest := fun x hx => h x (List.mem_cons_of_mem c hx)
    simp only [concatMap]
    rw [uriBytes_encodeChar c _ hc.2, ih hrest]
    rfl

/-- UTF-8 decoding of a list of ASCII code points restores the characters. -/
theorem utf8Decode_ascii (l : List Char) (h : ∀ c ∈ l, c.toNat < 128) :
    utf8Decode (l.map Char.toNat) = some l := by
  unfold utf8Decode
  induction l with
  | nil => rfl
  | cons c rest ih =>
    have hc := h c (List.mem_cons_self c rest)
    have hrest := fun x hx => h x (List.mem_cons_of_mem c hx)
    simp only [List.map_cons, List.length_cons]
    rw [utf8DecodeLoop]
    rw [show utf8Step c.toNat (List.map Char.toNat rest) =
          some (c.toNat, List.map Char.toNat rest) from by
        unfold utf8Step; rw [if_pos hc]]
    dsimp only
    rw [ih hrest]
    simp [Char.ofNat_toNat]

/-- Decode-encode round trip on printable ASCII. -/
theorem decodeURIComponent_encodeURIComponent (s : String)
    (h : ∀ c ∈ s.data, 32 ≤ c.toNat ∧ c.toNat ≤ 126) :
    decodeURIComponent (encodeURIComponent s) = some s := by
  unfold decodeURIComponent encodeURIComponent
  rw [show (String.mk (concatMap encodeChar s.data)).data =
        concatMap encodeChar s.data from rfl]
  rw [uriBytes_concatMap s.data h]
  dsimp only
  rw [utf8Decode_ascii s.data (fun c hc => by have := (h c hc).2; omega)]
  rfl

/-- Hexadecimal digits are not the delimiter `:`. -/
theorem hexDigitChar_ne_colon : ∀ n : Nat, n < 16 → hexDigitChar n ≠ ':' := by
  decide

/-- Membership in `concatMap`. -/
theorem mem_concatMap {f : α → List β} {l : List α} {x : β} :
    x ∈ concatMap f l ↔ ∃ a ∈ l, x ∈ f a := by
  induction l with
  | nil => simp [concatMap]
  | cons a rest ih => simp [concatMap, ih, List.mem_append]

/-- No character of an ASCII character's encoding is `:`. -/
theorem encodeChar_ne_colon (c : Char) (h2 : c.toNat ≤ 126) :
    ∀ x ∈ encodeChar c, x ≠ ':' := by
  intro x hx
  unfold encodeChar at hx
  by_cases hu : isUnreservedURI c
  · rw [if_pos hu] at hx
    simp only [List.mem_singleton] at hx
    subst hx
    intro hcol
    rw [hcol] at hu
    exact absurd hu (by decide)
  · rw [if_neg hu] at hx
    rw [utf8EncodeChar_ascii c (by omega)] at hx
    simp only [concatMap, percentEscape, List.append_nil, List.mem_cons,
      List.not_mem_nil, or_false] at hx
    have hhi : c.toNat / 16 < 16 := by omega
    have hlo : c.toNat % 16 < 16 := by omega
    rcases hx with hx | hx | hx
    · subst hx; decide
    · subst hx; exact hexDigitChar_ne_colon _ hhi
    · subst hx; exact hexDigitChar_ne_colon _ hlo

/-- No character of a printable-ASCII string's encoding is `:`. -/
theorem encodeURIComponent_ne_colon (s : String)
    (h : ∀ c ∈ s.data, c.toNat ≤ 126) :
    ∀ x ∈ (encodeURIComponent s).data, x ≠ ':' := by
  intro x hx
  rw [show (encodeURIComponent s).data = concatMap encodeChar s.data from rfl] at hx
  obtain ⟨a, ha, hxa⟩ := mem_concatMap.mp hx
  exact encodeChar_ne_colon a (h a ha) x hxa

/-- A character's encoding is never empty. -/
theorem encodeChar_ne_nil (c : Char) : encodeChar c ≠ [] := by
  unfold encodeChar
  split
  · simp
  · have hex : ∃ b bs, utf8EncodeChar c = b :: bs := by
      unfold utf8EncodeChar
      repeat' split
      all_goals exact ⟨_, _, rfl⟩
    obtain ⟨b, bs, hb⟩ := hex
    rw [hb]
    simp [concatMap, percentEscape]

/-- Encoding a non-empty string yields a non-empty string. -/
theorem encodeURIComponent_ne_empty (s : String) (h : s ≠ "") :
    encodeURIComponent s ≠ "" := by
  have hd : s.data ≠ [] := by
    intro hdata
    exact h (by
      have : String.mk s.data = String.mk [] := by rw [hdata]
      exact this)
  cases hs : s.data with
  | nil => exact absurd hs hd
  | cons c rest =>
    unfold encodeURIComponent
    rw [hs]
    intro hmk
    have : concatMap encodeChar (c :: rest) = [] := by
      have := congrArg String.data hmk
      exact this
    simp only [concatMap, List.append_eq_nil] at this
    exact encodeChar_ne_nil c this.1

/-- Decimal digit characters are not `:`. -/
theorem digitChar_ne_colon : ∀ k : Nat, k < 10 → Char.ofNat (48 + k) ≠ ':' := by
  decide

/-- All characters produced by `natToCharsAux` satisfy a predicate held by
the accumulator and by every decimal digit. -/
theorem natToCharsAux_ne_colon :
    ∀ (fuel n : Nat) (acc : List Char), (∀ c ∈ acc, c ≠ ':') →
      ∀ c ∈ natToCharsAux fuel n acc, c ≠ ':' := by
  intro fuel
  induction fuel with
  | zero => intro n acc hacc c hc; exact hacc c hc
  | succ f ih =>
    intro n acc hacc c hc
    rw [natToCharsAux] at hc
    split at hc
    · exact hacc c hc
    · refine ih (n / 10) _ ?_ c hc
      intro x hx
      rcases List.mem_cons.mp hx with hx | hx
      · subst hx; exact digitChar_ne_colon _ (Nat.mod_lt _ (by omega))
      · exact hacc x hx

/-- `natToCharsAux` never shortens the accumulator. -/
theorem natToCharsAux_length :
    ∀ (fuel n : Nat) (acc : List Char),
      acc.length ≤ (natToCharsAux fuel n acc).length := by
  intro fuel
  induction fuel with
  | zero => intro n acc; exact Nat.le_refl _
  | succ f ih =>
    intro n acc
    rw [natToCharsAux]
    split
    · exact Nat.le_refl _
    · exact Nat.le_trans (by simp) (ih (n / 10) _)

/-- The decimal representation has no `:`. -/
theorem natToChars_ne_colon (n : Nat) : ∀ c ∈ natToChars n, c ≠ ':' := by
  unfold natToChars
  split
  · intro c hc
    simp only [List.mem_singleton] at hc
    subst hc; decide
  · exact natToCharsAux_ne_colon n n [] (by simp)

/-- The decimal representation is never empty. -/
theorem natToChars_ne_nil (n : Nat) : natToChars n ≠ [] := by
  unfold natToChars
  split
  · simp
  · rename_i hn
    obtain ⟨f, rfl⟩ := Nat.exists_eq_succ_of_ne_zero hn
    rw [natToCharsAux]
    rw [if_neg hn]
    intro hnil
    have := natToCharsAux_length f ((f + 1) / 10)
      (Char.ofNat (48 + (f + 1) % 10) :: [])
    rw [hnil] at this
    simp at this

/-- The JavaScript decimal string of an integer has no `:`. -/
theorem jsIntToString_ne_colon (i : Int) :
    ∀ c ∈ (jsIntToString i).data, c ≠ ':' := by
  cases i with
  | ofNat n => exact natToChars_ne_colon n
  | negSucc n =>
    intro c hc
    rcases List.mem_cons.mp hc with hc | hc
    · subst hc; decide
    · exact natToChars_ne_colon (n + 1) c hc

/-- The JavaScript decimal string of an integer is non-empty. -/
theorem jsIntToString_ne_empty (i : Int) : jsIntToString i ≠ "" := by
  cases i with
  | ofNat n =>
    intro h
    exact natToChars_ne_nil n (congrArg String.data h)
  | negSucc n =>
    intro h
    exact List.noConfusion (congrArg String.data h)

/-- `jsSplitAux` does not depend on the fuel, as long as the fuel bounds
the list's length. -/
theorem jsSplitAux_fuel_irrel (c0 : Char) (sr : List Char) :
    ∀ (f1 f2 : Nat) (l acc : List Char), l.length ≤ f1 → l.length ≤ f2 →
      jsSplitAux c0 sr f1 l acc = jsSplitAux c0 sr f2 l acc := by
  intro f1
  induction f1 with
  | zero =>
    intro f2 l acc h1 h2
    have : l = [] := List.length_eq_zero.mp (Nat.le_zero.mp h1)
    subst this
    cases f2 <;> rfl
  | succ f ih =>
    intro f2 l acc h1 h2
    cases l with
    | nil => cases f2 <;> rfl
    | cons c rest =>
      cases f2 with
      | zero => simp at h2
      | succ g =>
        rw [jsSplitAux, jsSplitAux]
        simp only [List.length_cons] at h1 h2
        split
        · refine congrArg _ (ih g (rest.drop sr.length) [] ?_ ?_)
          · rw [List.length_drop]; omega
          · rw [List.length_drop]; omega
        · exact ih g rest (c :: acc) (by omega) (by omega)

/-- Splitting on `"::"`: a colon-free list is a single field. -/
theorem jsSplitAux_no_colon :
    ∀ (fuel : Nat) (l acc : List Char), l.length ≤ fuel →
      (∀ c ∈ l, c ≠ ':') →
      jsSplitAux ':' [':'] fuel l acc = [acc.reverse ++ l] := by
  intro fuel
  induction fuel with
  | zero =>
    intro l acc hlen _
    have : l = [] := List.length_eq_zero.mp (Nat.le_zero.mp hlen)
    subst this
    simp [jsSplitAux]
  | succ f ih =>
    intro l acc hlen hc
    cases l with
    | nil => simp [jsSplitAux]
    | cons c rest =>
      have hcc : c ≠ ':' := hc c (List.mem_cons_self c rest)
      rw [jsSplitAux]
      rw [if_neg (by simp [hcc])]
      rw [ih rest (c :: acc) (by simpa using hlen)
        (fun x hx => hc x (List.mem_cons_of_mem c hx))]
      simp

/-- Splitting on `"::"`: a colon-free prefix, the separator, then the
remainder. -/
theorem jsSplitAux_sep :
    ∀ (a : List Char) (fuel : Nat) (b acc : List Char),
      (a ++ ':' :: ':' :: b).length ≤ fuel →
      (∀ c ∈ a, c ≠ ':') →
      jsSplitAux ':' [':'] fuel (a ++ ':' :: ':' :: b) acc =
        (acc.reverse ++ a) :: jsSplitAux ':' [':'] b.length b [] := by
  intro a
  induction a with
  | nil =>
    intro fuel b acc hlen _
    cases fuel with
    | zero => simp at hlen
    | succ f =>
      simp only [List.nil_append] at hlen ⊢
      rw [jsSplitAux]
      rw [if_pos (by simp [List.isPrefixOf])]
      simp only [List.length_cons, Nat.add_le_add_iff_right] at hlen
      rw [show (':' :: b).drop [':'].length = b from rfl]
      rw [jsSplitAux_fuel_irrel ':' [':'] f b.length b [] (by omega) (Nat.le_refl _)]
      simp
  | cons c a' ih =>
    intro fuel b acc hlen hc
    cases fuel with
    | zero => simp at hlen
    | succ f =>
      have hcc : c ≠ ':' := hc c (List.mem_cons_self c a')
      simp only [List.cons_append] at hlen ⊢
      rw [jsSplitAux]
      rw [if_neg (by simp [hcc])]
      rw [ih f b (c :: acc) (by simpa using hlen)
        (fun x hx => hc x (List.mem_cons_of_mem c hx))]
      simp

/-- `jsSplit` of `x ++ "::" ++ y` with colon-free `x` and `y`. -/
theorem jsSplit_around_sep (x y : String)
    (hx : ∀ c ∈ x.data, c ≠ ':') (hy : ∀ c ∈ y.data, c ≠ ':') :
    jsSplit (x ++ "::" ++ y) "::" = [x, y] := by
  have hdata : (x ++ "::" ++ y).data = x.data ++ ':' :: ':' :: y.data := by
    rw [String.data_append, String.data_append,
      show ("::" : String).data = [':', ':'] from rfl, List.append_assoc]
    rfl
  rw [show jsSplit (x ++ "::" ++ y) "::" =
        (jsSplitAux ':' [':'] (x ++ "::" ++ y).data.length
          (x ++ "::" ++ y).data []).map String.mk from rfl]
  rw [hdata]
  rw [jsSplitAux_sep x.data _ y.data [] (Nat.le_refl _) hx]
  rw [jsSplitAux_no_colon y.data.length y.data [] (Nat.le_refl _) hy]
  simp

/-- C4 counterexample: the empty name — an integer id paired with a
(vacuously) delimiter-free printable string — does not round trip: the
decoder returns the fallback label "Project", not the original empty
name, because the empty encoded segment is falsy. -/
theorem C4_roundtrip_counterexample :
    parseOptionValue (some (optionValue 5 "")) = some ⟨some "5", "Project"⟩ ∧
    ("Project" : String) ≠ "" := by
  exact ⟨by decide, by decide⟩

/-- C4 (amended): for every integer id and every NON-EMPTY name of
printable ASCII characters containing no delimiter `:`,
`parseOptionValue (optionValue id name)` returns the id's decimal string
(non-null) and the name unchanged. -/
theorem C4_roundtrip (id : Int) (name : String) (hne : name ≠ "")
    (hchars : ∀ c ∈ name.data, 32 ≤ c.toNat ∧ c.toNat ≤ 126 ∧ c ≠ ':') :
    parseOptionValue (some (optionValue id name)) =
      some ⟨some (jsIntToString id), name⟩ := by
  have hidne : jsIntToString id ≠ "" := jsIntToString_ne_empty id
  have hsplit : jsSplit (optionValue id name) "::" =
      [jsIntToString id, encodeURIComponent name] :=
    jsSplit_around_sep (jsIntToString id) (encodeURIComponent name)
      (jsIntToString_ne_colon id)
      (encodeURIComponent_ne_colon name (fun c hc => (hchars c hc).2.1))
  have hs0 : optionValue id name ≠ "" := by
    intro h0
    rw [h0] at hsplit
    rw [show jsSplit "" "::" = [""] from rfl] at hsplit
    exact absurd hsplit (by simp)
  unfold parseOptionValue
  dsimp only
  rw [if_neg hs0]
  simp only [hsplit, List.getElem?_cons_zero, List.getElem?_cons_succ,
    Option.getD_some]
  rw [if_neg (encodeURIComponent_ne_empty name hne)]
  rw [decodeURIComponent_encodeURIComponent name
    (fun c hc => ⟨(hchars c hc).1, (hchars c hc).2.1⟩)]
  unfold jsIdOrNull
  rw [if_neg hidne]

/-- C4 witness: a negative id and a name exercising spaces, a percent
sign and an exclamation mark. -/
theorem C4_roundtrip_witness :
    ("A b%!x" : String) ≠ "" ∧
    parseOptionValue (some (optionValue (-12) "A b%!x")) =
      some ⟨some (jsIntToString (-12)), "A b%!x"⟩ :=
  ⟨by decide, C4_roundtrip (-12) "A b%!x" (by decide) (by decide)⟩

end Route
